import Mathlib

/-
Verification of the earthquake-scraping pipeline
(src/handlers/scrape_earthquakes.py) against its design document.

The Python source is shallowly embedded: each method of EarthquakeScraper
becomes a pure Lean function, keeping the original name.  Python floats
obtained by parsing decimal text are modelled as exact rationals.  The two
wall-clock reads (datetime.now used by find_datetime, datetime.utcnow used by
parse_timestamp and scraped_at) become explicit PyDateTime parameters.  The
fetched HTML document is modelled abstractly, as the design document requires,
as a tree carrying tables of rows of stripped cell texts.  The regular
expressions of the source are embedded as explicit leftmost-search scanners
whose behaviour at every reachable input coincides with Python re.search on
the corresponding pattern; each scanner carries the pattern it embeds in its
doc comment.
-/

namespace Sismos

/-! ### Characters and digits -/

/-- ASCII digit test, the meaning of the regex class backslash-d on the
ASCII inputs the scraper handles. -/
def isDigitCh (c : Char) : Bool := 48 ≤ c.toNat && c.toNat ≤ 57

/-- The regex class `[0-9.]`, written backslash-d together with a dot in the
source patterns for magnitudes. -/
def isDotDigit (c : Char) : Bool := isDigitCh c || c = '.'

/-- Python regex whitespace class (space, tab, newline, CR, VT, FF). -/
def isPySpace (c : Char) : Bool :=
  c = ' ' || c = '\t' || c = '\n' || c = '\x0d' || c = '\x0b' || c = '\x0c'

/-- The decimal digit character for a value below ten. -/
def toDigitChar (n : Nat) : Char := Char.ofNat (48 + n)

/-- Numeric value of a decimal digit character. -/
def digitVal (c : Char) : Nat := c.toNat - 48

/-- Value of a digit string, most significant first. -/
def natOfDigits (cs : List Char) : Nat :=
  cs.foldl (fun a c => 10 * a + digitVal c) 0

/-! ### The Python datetime value and its renderings -/

/-- A Python naive datetime, seconds precision (the scraper never uses
microseconds). -/
structure PyDateTime where
  year : Nat
  month : Nat
  day : Nat
  hour : Nat
  minute : Nat
  second : Nat
deriving DecidableEq, Repr

/-- Two-digit zero-padded rendering. -/
def pad2 (n : Nat) : List Char := [toDigitChar (n / 10), toDigitChar (n % 10)]

/-- Four-digit zero-padded rendering. -/
def pad4 (n : Nat) : List Char :=
  [toDigitChar (n / 1000), toDigitChar (n / 100 % 10),
   toDigitChar (n / 10 % 10), toDigitChar (n % 10)]

/-- Python strftime with format day/month/year hour:minute:second, the
fallback rendering in find_datetime (line 176 of the source). -/
def strftime_dmY_HMS (dt : PyDateTime) : String :=
  ⟨pad2 dt.day ++ '/' :: pad2 dt.month ++ '/' :: pad4 dt.year ++
   ' ' :: pad2 dt.hour ++ ':' :: pad2 dt.minute ++ ':' :: pad2 dt.second⟩

/-- Python datetime.isoformat at seconds precision. -/
def isoformat (dt : PyDateTime) : String :=
  ⟨pad4 dt.year ++ '-' :: pad2 dt.month ++ '-' :: pad2 dt.day ++
   'T' :: pad2 dt.hour ++ ':' :: pad2 dt.minute ++ ':' :: pad2 dt.second⟩

/-! ### Leftmost search, the semantics of re.search -/

/-- Run an anchored matcher at every start position from the left, returning
the first success: the semantics of re.search for the embedded patterns. -/
def searchChars (m : List Char → Option α) : List Char → Option α
  | [] => m []
  | c :: cs =>
    match m (c :: cs) with
    | some r => some r
    | none => searchChars m cs

/-! ### Python float of a group over digits and dots -/

/-- Python float() restricted to strings over digits and dots, the only
strings the magnitude groups can capture: it succeeds exactly when the string
has at least one digit and at most one dot, and yields the exact decimal
value. -/
def pyFloat (cs : List Char) : Option ℚ :=
  if cs.any isDigitCh ∧ cs.countP (fun c => c = '.') ≤ 1 then
    let intPart := cs.takeWhile (fun c => c ≠ '.')
    let fracPart := (cs.dropWhile (fun c => c ≠ '.')).drop 1
    some (mkRat (natOfDigits intPart * 10 ^ fracPart.length + natOfDigits fracPart)
      (10 ^ fracPart.length))
  else none

/-! ### Anchored matchers for the magnitude patterns (find_magnitude, lines
178-197).  For each pattern the backtracking of re.search collapses: a class
run can only be the maximal one, because shrinking it leaves a class
character where the continuation demands a space, a letter m, or the end of
the group, none of which lie in the class. -/

/-- Anchored match of pattern group-of-`[0-9.]`-plus, then whitespace-star,
then `[mM]`; returns the captured group. -/
def matchNumM (cs : List Char) : Option (List Char) :=
  let g := cs.takeWhile isDotDigit
  if g.isEmpty then none
  else
    match (cs.dropWhile isDotDigit).dropWhile isPySpace with
    | c :: _ => if c = 'm' || c = 'M' then some g else none
    | [] => none

/-- Anchored match of pattern `[mM]`, then whitespace-star, then
group-of-`[0-9.]`-plus; returns the captured group. -/
def matchMNum : List Char → Option (List Char)
  | c :: rest =>
    if c = 'm' || c = 'M' then
      let g := (rest.dropWhile isPySpace).takeWhile isDotDigit
      if g.isEmpty then none else some g
    else none
  | [] => none

/-- Case-insensitive literal match (the source compiles every magnitude and
depth pattern with re.IGNORECASE); ASCII folding, which covers every
character of the literals involved.  Returns the rest of the input. -/
def matchLitCI : List Char → List Char → Option (List Char)
  | [], rest => some rest
  | l :: ls, c :: cs => if l.toLower = c.toLower then matchLitCI ls cs else none
  | _ :: _, [] => none

/-- Anchored match of the word magnitud, then whitespace-star, then
group-of-`[0-9.]`-plus, case-insensitively; returns the captured group. -/
def matchMagnitudNum (cs : List Char) : Option (List Char) :=
  match matchLitCI "magnitud".data cs with
  | some rest =>
    let g := (rest.dropWhile isPySpace).takeWhile isDotDigit
    if g.isEmpty then none else some g
  | none => none

/-- Anchored match of pattern group of digits-plus, dot, digits-plus (a bare
decimal number); returns the captured group. -/
def decimalAt (cs : List Char) : Option (List Char) :=
  let d1 := cs.takeWhile isDigitCh
  if d1.isEmpty then none
  else
    match cs.dropWhile isDigitCh with
    | '.' :: rest =>
      let d2 := rest.takeWhile isDigitCh
      if d2.isEmpty then none else some (d1 ++ '.' :: d2)
    | _ => none

/-- The inner pattern loop of find_magnitude for one text: try the patterns
in order; a successful regex match whose group fails float() falls through to
the next pattern (the except-continue of lines 194-195). -/
def firstParsedFloat (pats : List (List Char → Option (List Char))) (cs : List Char) :
    Option ℚ :=
  match pats with
  | [] => none
  | p :: ps =>
    match searchChars p cs with
    | some g =>
      match pyFloat g with
      | some v => some v
      | none => firstParsedFloat ps cs
    | none => firstParsedFloat ps cs

/-- The pattern list of lines 182-187, in source order: the two specific
magnitude shapes, the word magnitud, then the bare decimal fallback. -/
def magnitudePatterns : List (List Char → Option (List Char)) :=
  [matchNumM, matchMNum, matchMagnitudNum, decimalAt]

/-- The pattern loop of find_magnitude applied to one text. -/
def tryMagPatterns (cs : List Char) : Option ℚ :=
  firstParsedFloat magnitudePatterns cs

/-- find_magnitude (lines 178-197): first text whose pattern loop parses a
float wins; 0.0 when no text yields one. -/
def find_magnitude : List String → ℚ
  | [] => 0
  | t :: ts =>
    match tryMagPatterns t.data with
    | some v => v
    | none => find_magnitude ts

/-! ### Depth patterns (find_depth, lines 199-217) -/

/-- Anchored match of group digits-plus, whitespace-star, then the literal km
case-insensitively; returns the captured group. -/
def matchNumKm (cs : List Char) : Option (List Char) :=
  let g := cs.takeWhile isDigitCh
  if g.isEmpty then none
  else
    match matchLitCI "km".data ((cs.dropWhile isDigitCh).dropWhile isPySpace) with
    | some _ => some g
    | none => none

/-- Anchored match of the literal profundidad, whitespace-star, then group
digits-plus, case-insensitively; returns the captured group. -/
def matchProfundidadNum (cs : List Char) : Option (List Char) :=
  match matchLitCI "profundidad".data cs with
  | some rest =>
    let g := (rest.dropWhile isPySpace).takeWhile isDigitCh
    if g.isEmpty then none else some g
  | none => none

/-- Anchored match of group digits-plus, whitespace-star, then the literal
kilómetros case-insensitively; returns the captured group. -/
def matchNumKilometros (cs : List Char) : Option (List Char) :=
  let g := cs.takeWhile isDigitCh
  if g.isEmpty then none
  else
    match matchLitCI "kilómetros".data
        ((cs.dropWhile isDigitCh).dropWhile isPySpace) with
    | some _ => some g
    | none => none

/-- find_depth (lines 199-217): groups are pure digit runs, so float() on
them never fails. -/
def find_depth : List String → ℚ
  | [] => 0
  | t :: ts =>
    match searchChars matchNumKm t.data with
    | some g => mkRat (natOfDigits g) 1
    | none =>
      match searchChars matchProfundidadNum t.data with
      | some g => mkRat (natOfDigits g) 1
      | none =>
        match searchChars matchNumKilometros t.data with
        | some g => mkRat (natOfDigits g) 1
        | none => find_depth ts

/-! ### Location choice (find_location, lines 219-228) -/

/-- Does the needle occur as a contiguous substring of the haystack? -/
def startsWithChars : List Char → List Char → Bool
  | [], _ => true
  | _ :: _, [] => false
  | a :: as, b :: bs => a = b && startsWithChars as bs

/-- Substring containment, the meaning of the Python `in` test on strings. -/
def containsSub (n : List Char) : List Char → Bool
  | [] => startsWithChars n []
  | c :: cs => startsWithChars n (c :: cs) || containsSub n cs

/-- The geographic keyword list of line 223. -/
def locKeywords : List String := ["km", "al", "de", "sur", "norte", "este", "oeste"]

/-- find_location (lines 219-228): first text longer than 10 characters
containing a keyword in its lowercasing; else the first text longer than 15
characters; else the fixed placeholder. -/
def find_location (texts : List String) : String :=
  match texts.find? (fun t =>
      t.length > 10 &&
      locKeywords.any (fun kw => containsSub kw.data (t.data.map Char.toLower))) with
  | some t => t
  | none =>
    match texts.find? (fun t => t.length > 15) with
    | some t => t
    | none => "Ubicación no especificada"

/-! ### The date and time regular expressions (find_datetime, lines 159-176).
The four patterns are sequences of digit repetitions and literal separators;
they are embedded as token lists run by a backtracking matcher, where a
one-or-two-digit repetition greedily tries two digits and falls back to
one. -/

/-- One token of a date/time pattern: one-or-two digits, exactly two digits,
exactly four digits, or a literal character. -/
inductive DTok
  | d12
  | d2
  | d4
  | lit (c : Char)
deriving DecidableEq, Repr

/-- Exactly k digit characters; returns the rest. -/
def exactDigits : Nat → List Char → Option (List Char)
  | 0, xs => some xs
  | k + 1, x :: xs => if isDigitCh x then exactDigits k xs else none
  | _ + 1, [] => none

/-- Anchored match of a token sequence, returning the number of characters
consumed.  The one-or-two-digit token backtracks: the greedy two-digit branch
is tried first and the one-digit branch is tried when the two-digit branch or
its continuation fails, exactly as the regex engine does. -/
def matchToks : List DTok → List Char → Option Nat
  | [], _ => some 0
  | .lit c :: ts, x :: xs =>
    if x = c then (matchToks ts xs).map (· + 1) else none
  | .lit _ :: _, [] => none
  | .d2 :: ts, xs =>
    match exactDigits 2 xs with
    | some r => (matchToks ts r).map (· + 2)
    | none => none
  | .d4 :: ts, xs =>
    match exactDigits 4 xs with
    | some r => (matchToks ts r).map (· + 4)
    | none => none
  | .d12 :: ts, xs =>
    match (match exactDigits 2 xs with
           | some r => (matchToks ts r).map (· + 2)
           | none => none) with
    | some n => some n
    | none =>
      match exactDigits 1 xs with
      | some r => (matchToks ts r).map (· + 1)
      | none => none

/-- re.search of a token-list pattern: leftmost match, returning the matched
substring (group 0, which find_datetime returns). -/
def searchToks (ts : List DTok) (s : List Char) : Option (List Char) :=
  searchChars (fun cs => (matchToks ts cs).map (fun n => cs.take n)) s

/-- Pattern digits/digits/4digits digits:2digits:2digits (line 164). -/
def dtPatternA : List DTok :=
  [.d12, .lit '/', .d12, .lit '/', .d4, .lit ' ', .d12, .lit ':', .d2, .lit ':', .d2]

/-- Pattern 4digits-digits-digits digits:2digits:2digits (line 165). -/
def dtPatternB : List DTok :=
  [.d4, .lit '-', .d12, .lit '-', .d12, .lit ' ', .d12, .lit ':', .d2, .lit ':', .d2]

/-- Pattern digits-digits-4digits digits:2digits:2digits (line 166). -/
def dtPatternC : List DTok :=
  [.d12, .lit '-', .d12, .lit '-', .d4, .lit ' ', .d12, .lit ':', .d2, .lit ':', .d2]

/-- Pattern digits/digits/4digits digits:2digits (line 167). -/
def dtPatternD : List DTok :=
  [.d12, .lit '/', .d12, .lit '/', .d4, .lit ' ', .d12, .lit ':', .d2]

/-- The source order of the four date/time patterns. -/
def dtPatterns : List (List DTok) := [dtPatternA, dtPatternB, dtPatternC, dtPatternD]

/-- The search phase of find_datetime: first text, in order, on which some
pattern (in source order) matches; yields the matched substring. -/
def firstDtMatch : List String → Option String
  | [] => none
  | t :: ts =>
    match dtPatterns.findSome? (fun p => searchToks p t.data) with
    | some m => some (⟨m⟩ : String)
    | none => firstDtMatch ts

/-- find_datetime (lines 159-176): the first pattern match, or the formatted
current wall-clock time when nothing matches. -/
def find_datetime (texts : List String) (nowL : PyDateTime) : String :=
  match firstDtMatch texts with
  | some s => s
  | none => strftime_dmY_HMS nowL

/-! ### Coordinates (parse_coordinates_from_text, lines 265-284) -/

/-- The exact value of a captured decimal group digits-dot-digits. -/
def decGroupValue (g : List Char) : ℚ := (pyFloat g).getD 0

/-- parse_coordinates_from_text (lines 265-284).  The latitude pattern is
group digits-dot-digits, optional degree sign, whitespace-star, optional
`[NS]`; the longitude pattern is the same with optional `[WE]`.  The three
trailing pieces are all optional, so neither search can fail once a bare
decimal occurs, and the captured group of both patterns is that of the first
bare decimal of the text.  The sign flips test whether the letters S, W, O
occur anywhere in the uppercased text (lines 276-279). -/
def parse_coordinates_from_text (text : String) : ℚ × ℚ :=
  let latg := searchChars decimalAt text.data
  let long := searchChars decimalAt text.data
  let lat := match latg with | some g => decGroupValue g | none => 0
  let lon := match long with | some g => decGroupValue g | none => 0
  let up := text.data.map Char.toUpper
  let lat := if up.contains 'S' then -lat else lat
  let lon := if up.contains 'W' || up.contains 'O' then -lon else lon
  (lat, lon)

/-! ### strptime (parse_timestamp, lines 286-304).  Python strptime turns a
format into one anchored regex requiring full consumption.  A numeric
directive of one-or-two digits carries its range inside its regex
alternation, so the greedy two-digit reading applies exactly when both
characters are digits and the two-digit value is in range; otherwise the
one-digit reading applies.  No deeper backtracking can change the outcome
for these formats, because after a one-digit reading the next character is a
digit while every continuation demands a separator, whitespace, or the end
of the string. -/

/-- A one-or-two-digit numeric directive with inclusive range, greedy. -/
def read12 (lo hi : Nat) : List Char → Option (Nat × List Char)
  | a :: b :: rest =>
    if isDigitCh a && isDigitCh b &&
        decide (lo ≤ 10 * digitVal a + digitVal b) &&
        decide (10 * digitVal a + digitVal b ≤ hi) then
      some (10 * digitVal a + digitVal b, rest)
    else if isDigitCh a && decide (lo ≤ digitVal a) && decide (digitVal a ≤ hi) then
      some (digitVal a, b :: rest)
    else none
  | [a] =>
    if isDigitCh a && decide (lo ≤ digitVal a) && decide (digitVal a ≤ hi) then
      some (digitVal a, [])
    else none
  | [] => none

/-- The four-digit year directive. -/
def readY : List Char → Option (Nat × List Char)
  | a :: b :: c :: d :: rest =>
    if isDigitCh a && isDigitCh b && isDigitCh c && isDigitCh d then
      some (1000 * digitVal a + 100 * digitVal b + 10 * digitVal c + digitVal d, rest)
    else none
  | _ => none

/-- A literal separator character in a strptime format. -/
def readLit (c : Char) : List Char → Option (List Char)
  | x :: xs => if x = c then some xs else none
  | [] => none

/-- Whitespace in a strptime format matches one or more whitespace
characters. -/
def readWS : List Char → Option (List Char)
  | x :: xs => if isPySpace x then some (xs.dropWhile isPySpace) else none
  | [] => none

/-- Gregorian leap year. -/
def isLeap (y : Nat) : Bool := (y % 4 = 0 && y % 100 ≠ 0) || y % 400 = 0

/-- Length of a month, as the datetime constructor checks it. -/
def daysInMonth (y m : Nat) : Nat :=
  if m = 2 then (if isLeap y then 29 else 28)
  else if m = 4 || m = 6 || m = 9 || m = 11 then 30
  else 31

/-- The validation the datetime constructor performs on the parsed fields
(year within bounds and day within the month; the remaining ranges are
already enforced by the directive regexes but datetime rechecks them). -/
def mkDatetime (y m d H M S : Nat) : Option PyDateTime :=
  if 1 ≤ y ∧ y ≤ 9999 ∧ 1 ≤ m ∧ m ≤ 12 ∧ 1 ≤ d ∧ d ≤ daysInMonth y m ∧
      H ≤ 23 ∧ M ≤ 59 ∧ S ≤ 59 then
    some ⟨y, m, d, H, M, S⟩
  else none

/-- strptime with format day/month/year hour:minute:second (line 289). -/
def strptime_fmt1 (cs : List Char) : Option PyDateTime := do
  let (d, r1) ← read12 1 31 cs
  let r2 ← readLit '/' r1
  let (m, r3) ← read12 1 12 r2
  let r4 ← readLit '/' r3
  let (y, r5) ← readY r4
  let r6 ← readWS r5
  let (H, r7) ← read12 0 23 r6
  let r8 ← readLit ':' r7
  let (M, r9) ← read12 0 59 r8
  let r10 ← readLit ':' r9
  let (S, r11) ← read12 0 59 r10
  match r11 with
  | [] => mkDatetime y m d H M S
  | _ => none

/-- strptime with format year-month-day hour:minute:second (line 290). -/
def strptime_fmt2 (cs : List Char) : Option PyDateTime := do
  let (y, r1) ← readY cs
  let r2 ← readLit '-' r1
  let (m, r3) ← read12 1 12 r2
  let r4 ← readLit '-' r3
  let (d, r5) ← read12 1 31 r4
  let r6 ← readWS r5
  let (H, r7) ← read12 0 23 r6
  let r8 ← readLit ':' r7
  let (M, r9) ← read12 0 59 r8
  let r10 ← readLit ':' r9
  let (S, r11) ← read12 0 59 r10
  match r11 with
  | [] => mkDatetime y m d H M S
  | _ => none

/-- strptime with format day-month-year hour:minute:second (line 291). -/
def strptime_fmt3 (cs : List Char) : Option PyDateTime := do
  let (d, r1) ← read12 1 31 cs
  let r2 ← readLit '-' r1
  let (m, r3) ← read12 1 12 r2
  let r4 ← readLit '-' r3
  let (y, r5) ← readY r4
  let r6 ← readWS r5
  let (H, r7) ← read12 0 23 r6
  let r8 ← readLit ':' r7
  let (M, r9) ← read12 0 59 r8
  let r10 ← readLit ':' r9
  let (S, r11) ← read12 0 59 r10
  match r11 with
  | [] => mkDatetime y m d H M S
  | _ => none

/-- strptime with format day/month/year hour:minute (line 292); the missing
second defaults to zero. -/
def strptime_fmt4 (cs : List Char) : Option PyDateTime := do
  let (d, r1) ← read12 1 31 cs
  let r2 ← readLit '/' r1
  let (m, r3) ← read12 1 12 r2
  let r4 ← readLit '/' r3
  let (y, r5) ← readY r4
  let r6 ← readWS r5
  let (H, r7) ← read12 0 23 r6
  let r8 ← readLit ':' r7
  let (M, r9) ← read12 0 59 r8
  match r9 with
  | [] => mkDatetime y m d H M 0
  | _ => none

/-- parse_timestamp (lines 286-304): try the four formats in source order and
return the isoformat of the first success, else the isoformat of the current
UTC time. -/
def parse_timestamp (text : String) (nowU : PyDateTime) : String :=
  match strptime_fmt1 text.data with
  | some dt => isoformat dt
  | none =>
    match strptime_fmt2 text.data with
    | some dt => isoformat dt
    | none =>
      match strptime_fmt3 text.data with
      | some dt => isoformat dt
      | none =>
        match strptime_fmt4 text.data with
        | some dt => isoformat dt
        | none => isoformat nowU

/-! ### MD5 (generate_id, lines 306-308, calls hashlib.md5 on the UTF-8
encoding of the joined string).  Full embedding of the MD5 digest over byte
lists, words as naturals reduced modulo 2 to the 32. -/

/-- Bitwise complement on a 32-bit word. -/
def wnot (a : Nat) : Nat := 4294967295 - a

/-- Left rotation of a 32-bit word; the two summands occupy disjoint bit
ranges. -/
def rotl (x s : Nat) : Nat := (x * 2 ^ s) % 4294967296 + x / 2 ^ (32 - s)

/-- MD5 round function F. -/
def mF (x y z : Nat) : Nat := (x.land y).lor ((wnot x).land z)

/-- MD5 round function G. -/
def mG (x y z : Nat) : Nat := (x.land z).lor (y.land (wnot z))

/-- MD5 round function H. -/
def mH (x y z : Nat) : Nat := (x.xor y).xor z

/-- MD5 round function I. -/
def mI (x y z : Nat) : Nat := y.xor (x.lor (wnot z))

/-- The 64 MD5 sine-derived constants. -/
def md5K : List Nat :=
  [0xd76aa478, 0xe8c7b756, 0x242070db, 0xc1bdceee,
   0xf57c0faf, 0x4787c62a, 0xa8304613, 0xfd469501,
   0x698098d8, 0x8b44f7af, 0xffff5bb1, 0x895cd7be,
   0x6b901122, 0xfd987193, 0xa679438e, 0x49b40821,
   0xf61e2562, 0xc040b340, 0x265e5a51, 0xe9b6c7aa,
   0xd62f105d, 0x02441453, 0xd8a1e681, 0xe7d3fbc8,
   0x21e1cde6, 0xc33707d6, 0xf4d50d87, 0x455a14ed,
   0xa9e3e905, 0xfcefa3f8, 0x676f02d9, 0x8d2a4c8a,
   0xfffa3942, 0x8771f681, 0x6d9d6122, 0xfde5380c,
   0xa4beea44, 0x4bdecfa9, 0xf6bb4b60, 0xbebfbc70,
   0x289b7ec6, 0xeaa127fa, 0xd4ef3085, 0x04881d05,
   0xd9d4d039, 0xe6db99e5, 0x1fa27cf8, 0xc4ac5665,
   0xf4292244, 0x432aff97, 0xab9423a7, 0xfc93a039,
   0x655b59c3, 0x8f0ccc92, 0xffeff47d, 0x85845dd1,
   0x6fa87e4f, 0xfe2ce6e0, 0xa3014314, 0x4e0811a1,
   0xf7537e82, 0xbd3af235, 0x2ad7d2bb, 0xeb86d391]

/-- The 64 MD5 per-round rotation amounts. -/
def md5S : List Nat :=
  [7, 12, 17, 22, 7, 12, 17, 22, 7, 12, 17, 22, 7, 12, 17, 22,
   5, 9, 14, 20, 5, 9, 14, 20, 5, 9, 14, 20, 5, 9, 14, 20,
   4, 11, 16, 23, 4, 11, 16, 23, 4, 11, 16, 23, 4, 11, 16, 23,
   6, 10, 15, 21, 6, 10, 15, 21, 6, 10, 15, 21, 6, 10, 15, 21]

/-- MD5 message padding: a 0x80 byte, zeros to 56 modulo 64, and the bit
length as eight little-endian bytes. -/
def md5Pad (msg : List Nat) : List Nat :=
  let L := msg.length
  let z := (120 - (L + 1) % 64) % 64
  msg ++ 0x80 :: List.replicate z 0 ++
    (List.range 8).map (fun i => L * 8 / 256 ^ i % 256)

/-- Split a byte list into blocks of 64. -/
def chunks64Aux : Nat → List Nat → List (List Nat)
  | 0, _ => []
  | _ + 1, [] => []
  | fuel + 1, l => l.take 64 :: chunks64Aux fuel (l.drop 64)

/-- All 64-byte blocks of a padded message. -/
def chunks64 (l : List Nat) : List (List Nat) := chunks64Aux l.length l

/-- Word j of a 64-byte block, little-endian. -/
def blockWord (b : List Nat) (j : Nat) : Nat :=
  b.getD (4 * j) 0 + 256 * b.getD (4 * j + 1) 0 +
    65536 * b.getD (4 * j + 2) 0 + 16777216 * b.getD (4 * j + 3) 0

/-- One MD5 operation. -/
def md5Step (b : List Nat) (st : Nat × Nat × Nat × Nat) (i : Nat) :
    Nat × Nat × Nat × Nat :=
  let A := st.1; let B := st.2.1; let C := st.2.2.1; let D := st.2.2.2
  let fg : Nat × Nat :=
    if i < 16 then (mF B C D, i)
    else if i < 32 then (mG B C D, (5 * i + 1) % 16)
    else if i < 48 then (mH B C D, (3 * i + 5) % 16)
    else (mI B C D, 7 * i % 16)
  let F := (fg.1 + A + md5K.getD i 0 + blockWord b fg.2) % 4294967296
  (D, (B + rotl F (md5S.getD i 0)) % 4294967296, B, C)

/-- Process one 64-byte block. -/
def md5Block (st : Nat × Nat × Nat × Nat) (b : List Nat) :
    Nat × Nat × Nat × Nat :=
  let r := (List.range 64).foldl (md5Step b) st
  ((st.1 + r.1) % 4294967296, (st.2.1 + r.2.1) % 4294967296,
   (st.2.2.1 + r.2.2.1) % 4294967296, (st.2.2.2 + r.2.2.2) % 4294967296)

/-- Lowercase hexadecimal digit. -/
def hexDigit (n : Nat) : Char :=
  if n < 10 then toDigitChar n else Char.ofNat (87 + n)

/-- Two lowercase hexadecimal digits of a byte. -/
def byteHex (b : Nat) : List Char := [hexDigit (b / 16), hexDigit (b % 16)]

/-- Four little-endian bytes of a 32-bit word. -/
def wordLEBytes (w : Nat) : List Nat :=
  [w % 256, w / 256 % 256, w / 65536 % 256, w / 16777216 % 256]

/-- hashlib.md5(...).hexdigest() on a byte list. -/
def md5hex (msg : List Nat) : String :=
  let st := (chunks64 (md5Pad msg)).foldl md5Block
    (0x67452301, 0xefcdab89, 0x98badcfe, 0x10325476)
  ⟨((wordLEBytes st.1 ++ wordLEBytes st.2.1 ++ wordLEBytes st.2.2.1 ++
     wordLEBytes st.2.2.2).map byteHex).flatten⟩

/-- UTF-8 bytes of one character, the meaning of Python str.encode. -/
def charUtf8 (c : Char) : List Nat :=
  let n := c.toNat
  if n < 0x80 then [n]
  else if n < 0x800 then [0xc0 + n / 0x40, 0x80 + n % 0x40]
  else if n < 0x10000 then
    [0xe0 + n / 0x1000, 0x80 + n / 0x40 % 0x40, 0x80 + n % 0x40]
  else
    [0xf0 + n / 0x40000, 0x80 + n / 0x1000 % 0x40,
     0x80 + n / 0x40 % 0x40, 0x80 + n % 0x40]

/-- UTF-8 encoding of a string. -/
def utf8Bytes (s : String) : List Nat := (s.data.map charUtf8).flatten

/-! ### Python float formatting (the f-string of line 307) -/

/-- Decimal digit characters of a natural number. -/
def natDigitsAux : Nat → Nat → List Char
  | 0, _ => []
  | fuel + 1, n =>
    if n < 10 then [toDigitChar n]
    else natDigitsAux fuel (n / 10) ++ [toDigitChar (n % 10)]

/-- Decimal rendering of a natural number. -/
def natToChars (n : Nat) : List Char := natDigitsAux (n + 1) n

/-- Smallest k below the fuel bound with den dividing 10 to the k. -/
def findExp (den : Nat) : Nat → Nat → Option Nat
  | _, 0 => none
  | k, fuel + 1 => if 10 ^ k % den = 0 then some k else findExp den (k + 1) fuel

/-- Zero-pad a digit list on the left to the given width. -/
def padZeros (w : Nat) (l : List Char) : List Char :=
  List.replicate (w - l.length) '0' ++ l

/-- Python repr of a float, restricted to the values the pipeline feeds it:
rationals read from decimal literals, whose denominators divide a power of
ten.  Python prints the shortest decimal expansion, which for such values is
the exact expansion with the minimal number of fractional digits, always
keeping at least one fractional digit.  (The fallback branch is unreachable
for pipeline values.) -/
def pyFloatRepr (q : ℚ) : String :=
  let sign : String := if q < 0 then "-" else ""
  let n := q.num.natAbs
  let d := q.den
  match findExp d 0 101 with
  | some 0 => sign ++ (⟨natToChars n⟩ : String) ++ ".0"
  | some k =>
    let scaled := n * 10 ^ k / d
    sign ++ (⟨natToChars (scaled / 10 ^ k)⟩ : String) ++ "." ++
      (⟨padZeros k (natToChars (scaled % 10 ^ k))⟩ : String)
  | none => sign ++ (⟨natToChars n⟩ : String) ++ "/" ++ (⟨natToChars d⟩ : String)

/-- generate_id (lines 306-308): md5 hexdigest of the underscore-joined
date/time token, magnitude and location. -/
def generate_id (fecha_hora : String) (magnitud : ℚ) (ubicacion : String) : String :=
  md5hex (utf8Bytes (fecha_hora ++ "_" ++ pyFloatRepr magnitud ++ "_" ++ ubicacion))

/-! ### The document model and the row extractor.  The design document treats
the fetched page as an abstract tree; a cell is represented by its stripped
text (the result of get_text with strip, line 121), a row by its list of td
and th cells, a table by its list of tr rows, and the parsed document by its
list of tables.  The free-text and container strategies never construct
records, so no further document structure is observable. -/

/-- One tr row: its td and th cells, each as its stripped text.  A cell with
empty text is still a cell and is counted by the length-3 check of the
source (line 96). -/
structure HtmlRow where
  cells : List String
deriving DecidableEq, Repr

/-- One table element: its tr rows. -/
structure HtmlTable where
  rows : List HtmlRow
deriving DecidableEq, Repr

/-- The parsed document. -/
structure Soup where
  tables : List HtmlTable
deriving DecidableEq, Repr

/-- The earthquake dictionary built at lines 140-151. -/
structure Earthquake where
  id : String
  timestamp : String
  fecha_hora : String
  magnitud : ℚ
  profundidad_km : ℚ
  ubicacion : String
  latitud : ℚ
  longitud : ℚ
  scraped_at : String
  raw_data : List String
deriving DecidableEq, Repr

/-- parse_earthquake_row (lines 118-157).  nowL is the wall clock read by
datetime.now inside find_datetime; nowU is the UTC clock read by
datetime.utcnow for parse_timestamp's fallback and for scraped_at.  The
record is built when the Python truthiness check of line 130 passes: the
date/time token is non-empty and the magnitude is strictly positive. -/
def parse_earthquake_row (cells : List String) (nowL nowU : PyDateTime) :
    Option Earthquake :=
  let fecha_hora := find_datetime cells nowL
  let magnitud := find_magnitude cells
  let profundidad := find_depth cells
  let ubicacion := find_location cells
  if fecha_hora ≠ "" ∧ magnitud > 0 then
    some
      { id := generate_id fecha_hora magnitud ubicacion
        timestamp := parse_timestamp fecha_hora nowU
        fecha_hora := fecha_hora
        magnitud := magnitud
        profundidad_km := profundidad
        ubicacion := ubicacion
        latitud := (parse_coordinates_from_text ubicacion).1
        longitud := (parse_coordinates_from_text ubicacion).2
        scraped_at := isoformat nowU
        raw_data := cells }
  else none

/-- The row loop of extract_from_table (lines 91-111): rows with at least 3
cells are parsed and successful parses appended; after every row the loop
breaks once the list reaches 10 records. -/
def extractRows (nowL nowU : PyDateTime) : List HtmlRow → List Earthquake → List Earthquake
  | [], acc => acc
  | r :: rs, acc =>
    let acc' :=
      if r.cells.length ≥ 3 then
        match parse_earthquake_row r.cells nowL nowU with
        | some e => acc ++ [e]
        | none => acc
      else acc
    if acc'.length ≥ 10 then acc' else extractRows nowL nowU rs acc'

/-- extract_from_table (lines 85-116): the first row is skipped as a
presumed header. -/
def extract_from_table (t : HtmlTable) (nowL nowU : PyDateTime) : List Earthquake :=
  extractRows nowL nowU (t.rows.drop 1) []

/-- extract_from_text (lines 230-247): the line loop only prints candidate
lines and never appends to its accumulator, so the strategy returns the
empty list on every document. -/
def extract_from_text (_soup : Soup) : List Earthquake := []

/-- extract_from_divs (lines 249-263): likewise detection-only; the div loop
never appends to its accumulator. -/
def extract_from_divs (_soup : Soup) : List Earthquake := []

/-- The records the table loop of extract_earthquakes_from_html accumulates
(lines 64-69): every table is scanned and its records appended; extending
with an empty per-table list is the identity, so the guard of line 67 does
not change the accumulated value. -/
def tabularRecords (soup : Soup) (nowL nowU : PyDateTime) : List Earthquake :=
  (soup.tables.map (fun t => extract_from_table t nowL nowU)).flatten

/-- extract_earthquakes_from_html (lines 54-83): the tabular pass, then the
free-text pass only when nothing was found, then the container pass only
when still nothing was found, and a final truncation to 10 records. -/
def extract_earthquakes_from_html (soup : Soup) (nowL nowU : PyDateTime) :
    List Earthquake :=
  let earthquakes := tabularRecords soup nowL nowU
  let earthquakes :=
    if earthquakes.isEmpty then earthquakes ++ extract_from_text soup else earthquakes
  let earthquakes :=
    if earthquakes.isEmpty then earthquakes ++ extract_from_divs soup else earthquakes
  earthquakes.take 10

/-! ### Orchestrator and entry point (scrape_earthquakes, lines 26-52, and
lambda_handler, lines 310-358).  The network fetch and the DynamoDB table
are the injected collaborators of the design document: the fetch outcome is
a value of Except FetchError Soup, and the persistence collaborator is a
function reporting per-record success of put_item. -/

/-- A failure of the page fetch: connection error, timeout, or the non-2xx
status raised by raise_for_status (line 32). -/
inductive FetchError
  | network
  | timeout
  | httpStatus (code : Nat)
deriving DecidableEq, Repr

/-- scrape_earthquakes (lines 26-52): every exception of the fetch-and-parse
block is caught and turned into the empty record list. -/
def scrape_earthquakes (fetched : Except FetchError Soup) (nowL nowU : PyDateTime) :
    List Earthquake :=
  match fetched with
  | .error _ => []
  | .ok soup => extract_earthquakes_from_html soup nowL nowU

/-- The save loop of lambda_handler (lines 315-323): a failing put_item is
caught and skipped, and the loop continues with the remaining records. -/
def save_loop (upsert : Earthquake → Bool) : List Earthquake → Nat
  | [] => 0
  | e :: es => (if upsert e then 1 else 0) + save_loop upsert es

/-- The HTTP-shaped response of lambda_handler.  The embedded pipeline is
total, so the except branch of lines 345-356 is unreachable and the status
is always 200. -/
structure LambdaResponse where
  statusCode : Nat
  sismos_procesados : Nat
  sismos_guardados : Nat
  timestamp : String
deriving DecidableEq, Repr

/-- lambda_handler (lines 310-358). -/
def lambda_handler (fetched : Except FetchError Soup)
    (upsert : Earthquake → Bool) (nowL nowU : PyDateTime) : LambdaResponse :=
  let earthquakes := scrape_earthquakes fetched nowL nowU
  let saved_count := save_loop upsert earthquakes
  { statusCode := 200
    sismos_procesados := earthquakes.length
    sismos_guardados := saved_count
    timestamp := isoformat nowU }

/-! ### Concrete fixtures.  These are the test doubles of the design
document's testable-properties section: a fixed clock, table rows with the
documented field values, documents built from them, and a persistence double
failing on a chosen record. -/

/-- A fixed wall-clock value for concrete runs. -/
def now0 : PyDateTime := ⟨2024, 1, 1, 0, 0, 0⟩

/-- A second, distinct clock value, for comparing two scrape runs. -/
def now1 : PyDateTime := ⟨2025, 6, 7, 8, 9, 10⟩

/-- A header row. -/
def hdrRow : HtmlRow := ⟨["Fecha", "Magnitud", "Profundidad"]⟩

/-- A complete data row with the field values of the design document's
end-to-end test property. -/
def dataRow1 : HtmlRow := ⟨["15/03/2024 10:30:00", "M 4.5", "60 km", "12 km al sur de Lima"]⟩

/-- A second complete data row with a different magnitude. -/
def dataRow2 : HtmlRow := ⟨["16/03/2024 11:00:00", "M 5.1", "80 km", "20 km al oeste de Ica"]⟩

/-- A document with two tables, each holding a header and one complete data
row; the first table is productive. -/
def soupTwoTables : Soup := ⟨[⟨[hdrRow, dataRow1]⟩, ⟨[hdrRow, dataRow2]⟩]⟩

/-- A row with three cells of which only one is non-empty. -/
def sparseRow : HtmlRow := ⟨["5.0 M", "", ""]⟩

/-- A persistence double whose put_item fails exactly on records of
magnitude 4.5 (the first record of soupTwoTables) and succeeds on the
rest. -/
def upsertFailOn45 (e : Earthquake) : Bool := decide (e.magnitud ≠ mkRat 9 2)

/-! ### Canonical tokens of the four supported date/time shapes, used to
state the round-trip property of parse_timestamp: the zero-padded rendering
of given components in each of the four format families of lines 288-293.
The first family's rendering coincides with strftime_dmY_HMS. -/

/-- Canonical token of the year-month-day family (line 290). -/
def token_Ymd_HMS (y m d H M S : Nat) : String :=
  ⟨pad4 y ++ '-' :: pad2 m ++ '-' :: pad2 d ++
   ' ' :: pad2 H ++ ':' :: pad2 M ++ ':' :: pad2 S⟩

/-- Canonical token of the hyphenated day-month-year family (line 291). -/
def token_dmY_HMS_dash (y m d H M S : Nat) : String :=
  ⟨pad2 d ++ '-' :: pad2 m ++ '-' :: pad4 y ++
   ' ' :: pad2 H ++ ':' :: pad2 M ++ ':' :: pad2 S⟩

/-- Canonical token of the minute-precision day/month/year family
(line 292). -/
def token_dmY_HM (y m d H M : Nat) : String :=
  ⟨pad2 d ++ '/' :: pad2 m ++ '/' :: pad4 y ++ ' ' :: pad2 H ++ ':' :: pad2 M⟩

/-! ## Theorems

First a few bridge lemmas identifying decimal literals of the claims with
kernel-computable normalized rationals, then general lemmas about the
pipeline, then one theorem per claim. -/

/-- 4.5 as a normalized rational. -/
lemma q45 : (4.5 : ℚ) = mkRat 9 2 := by rw [Rat.mkRat_eq_div]; norm_num

/-- 5.1 as a normalized rational. -/
lemma q51 : (5.1 : ℚ) = mkRat 51 10 := by rw [Rat.mkRat_eq_div]; norm_num

/-- minus 12.5 as a normalized rational. -/
lemma qm125 : (-12.5 : ℚ) = mkRat (-25) 2 := by rw [Rat.mkRat_eq_div]; norm_num

/-- minus 76.8 as a normalized rational. -/
lemma qm768 : (-76.8 : ℚ) = mkRat (-384) 5 := by rw [Rat.mkRat_eq_div]; norm_num

/-- C1, evaluation at the failing input.  The design document requires
parse_coordinates("12.5°S, 76.8°W") = (-12.5, -76.8); the code returns
(-12.5, -12.5), because the optional tail of the longitude pattern lets its
search succeed on the first decimal of the text, the latitude.  The first
conjunct evaluates the embedded code at the input; the second states that
the documented value differs. -/
theorem c1_coordinates_failing_input :
    parse_coordinates_from_text "12.5°S, 76.8°W" = (-12.5, -12.5) ∧
    parse_coordinates_from_text "12.5°S, 76.8°W" ≠ (-12.5, -76.8) := by
  rw [qm125, qm768]
  exact ⟨rfl, by decide⟩

/-! ### General lemmas about the pipeline -/

/-- The free-text and container strategies contribute nothing, so the
strategy chain always returns the truncated tabular records. -/
lemma extract_eq_tabular_take (soup : Soup) (nowL nowU : PyDateTime) :
    extract_earthquakes_from_html soup nowL nowU =
      (tabularRecords soup nowL nowU).take 10 := by
  unfold extract_earthquakes_from_html extract_from_text extract_from_divs
  by_cases h : (tabularRecords soup nowL nowU).isEmpty <;> simp [h]

/-- The row loop of a single table never grows its accumulator past ten
records: the break of line 110-111 fires as soon as ten are reached. -/
lemma extractRows_length_le (nowL nowU : PyDateTime) (rows : List HtmlRow)
    (acc : List Earthquake) (h : acc.length ≤ 9) :
    (extractRows nowL nowU rows acc).length ≤ 10 := by
  induction rows generalizing acc with
  | nil => simpa [extractRows] using Nat.le_trans h (by omega)
  | cons r rs ih =>
    rw [extractRows]
    set acc' :=
      (if r.cells.length ≥ 3 then
        match parse_earthquake_row r.cells nowL nowU with
        | some e => acc ++ [e]
        | none => acc
      else acc) with hacc
    have hlen : acc'.length ≤ acc.length + 1 := by
      rw [hacc]
      split
      · split <;> simp
      · simp
    by_cases hb : acc'.length ≥ 10
    · simp only [hb, if_true]
      omega
    · simp only [hb, if_false]
      exact ih acc' (by omega)

/-- Every earthquake a single table yields fits the per-table cap of ten. -/
lemma extract_from_table_length_le (t : HtmlTable) (nowL nowU : PyDateTime) :
    (extract_from_table t nowL nowU).length ≤ 10 :=
  extractRows_length_le nowL nowU _ [] (by simp)

/-- A magnitude group parses to a non-negative value: every captured group
is a string of digits and dots, whose decimal value cannot be negative. -/
lemma pyFloat_nonneg {cs : List Char} {v : ℚ} (h : pyFloat cs = some v) : 0 ≤ v := by
  unfold pyFloat at h
  split at h
  · cases h
    exact Rat.mkRat_nonneg (by positivity) _
  · cases h

/-- Every value the pattern loop returns is non-negative. -/
lemma firstParsedFloat_nonneg {pats : List (List Char → Option (List Char))}
    {cs : List Char} {v : ℚ} (h : firstParsedFloat pats cs = some v) : 0 ≤ v := by
  induction pats with
  | nil => cases h
  | cons p ps ih =>
    rcases hs : searchChars p cs with _ | g <;>
      simp only [firstParsedFloat, hs] at h
    · exact ih h
    · rcases hf : pyFloat g with _ | w <;> simp only [hf] at h
      · exact ih h
      · cases h
        exact pyFloat_nonneg hf
/-- find_magnitude never returns a negative value. -/
lemma find_magnitude_nonneg (texts : List String) : 0 ≤ find_magnitude texts := by
  induction texts with
  | nil => simp [find_magnitude]
  | cons t ts ih =>
    rw [find_magnitude]
    rcases hm : tryMagPatterns t.data with _ | v
    · exact ih
    · exact firstParsedFloat_nonneg hm

/-- exactDigits only succeeds on a non-empty list when asked for at least
one digit. -/
lemma exactDigits_succ_ne_nil {k : Nat} {cs r : List Char}
    (h : exactDigits (k + 1) cs = some r) : cs ≠ [] := by
  cases cs with
  | nil => cases h
  | cons c cs => exact List.cons_ne_nil c cs

/-- A match of any of the four date/time patterns consumes at least one
character, and only succeeds on a non-empty input: each pattern starts with
a digit token. -/
lemma matchToks_dt_pos {p : List DTok} (hp : p ∈ dtPatterns) {cs : List Char}
    {n : Nat} (h : matchToks p cs = some n) : 1 ≤ n ∧ cs ≠ [] := by
  have hhead : ∃ ts, p = DTok.d12 :: ts ∨ p = DTok.d4 :: ts := by
    simp only [dtPatterns, dtPatternA, dtPatternB, dtPatternC, dtPatternD,
      List.mem_cons, List.mem_singleton, List.not_mem_nil, or_false] at hp
    rcases hp with hp | hp | hp | hp <;> subst hp
    · exact ⟨_, Or.inl rfl⟩
    · exact ⟨_, Or.inr rfl⟩
    · exact ⟨_, Or.inl rfl⟩
    · exact ⟨_, Or.inl rfl⟩
  obtain ⟨ts, hts | hts⟩ := hhead <;> subst hts
  · rw [matchToks] at h
    rcases h2 : exactDigits 2 cs with _ | r <;> simp only [h2] at h
    · rcases h1 : exactDigits 1 cs with _ | r <;> simp only [h1] at h
      · cases h
      · rcases hm : matchToks ts r with _ | k <;> simp only [hm, Option.map] at h
        · cases h
        · cases h
          exact ⟨by omega, exactDigits_succ_ne_nil h1⟩
    · rcases hm : matchToks ts r with _ | k <;> simp only [hm, Option.map] at h
      · rcases h1 : exactDigits 1 cs with _ | r1 <;> simp only [h1] at h
        · cases h
        · rcases hm1 : matchToks ts r1 with _ | k1 <;>
            simp only [hm1, Option.map] at h
          · cases h
          · cases h
            exact ⟨by omega, exactDigits_succ_ne_nil h1⟩
      · cases h
        exact ⟨by omega, exactDigits_succ_ne_nil h2⟩
  · rw [matchToks] at h
    rcases h4 : exactDigits 4 cs with _ | r <;> simp only [h4] at h
    · cases h
    · rcases hm : matchToks ts r with _ | k <;> simp only [hm, Option.map] at h
      · cases h
      · cases h
        exact ⟨by omega, exactDigits_succ_ne_nil h4⟩

/-- A date/time pattern search never returns the empty string. -/
lemma searchToks_ne_nil {p : List DTok} (hp : p ∈ dtPatterns) {s m : List Char}
    (h : searchToks p s = some m) : m ≠ [] := by
  induction s with
  | nil =>
    rw [searchToks, searchChars] at h
    rcases hm : matchToks p [] with _ | n <;> simp only [hm, Option.map] at h
    · cases h
    · exact absurd rfl (matchToks_dt_pos hp hm).2
  | cons c cs ih =>
    rw [searchToks, searchChars] at h
    rcases hm : matchToks p (c :: cs) with _ | n <;>
      simp only [hm, Option.map] at h
    · exact ih h
    · cases h
      obtain ⟨hn, -⟩ := matchToks_dt_pos hp hm
      cases n with
      | zero => omega
      | succ k => simp [List.take]

/-- The match phase of find_datetime never produces the empty string. -/
lemma firstDtMatch_ne_empty {texts : List String} {s : String}
    (h : firstDtMatch texts = some s) : s ≠ "" := by
  induction texts with
  | nil => cases h
  | cons t ts ih =>
    rw [firstDtMatch] at h
    rcases hf : dtPatterns.findSome? (fun p => searchToks p t.data) with _ | m <;>
      simp only [hf] at h
    · exact ih h
    · cases h
      obtain ⟨p, hp, hm⟩ := List.exists_of_findSome?_eq_some hf
      have : m ≠ [] := searchToks_ne_nil hp hm
      simpa [String.ext_iff] using this

/-- The fallback rendering of the current time is 19 characters, never
empty. -/
lemma strftime_ne_empty (dt : PyDateTime) : strftime_dmY_HMS dt ≠ "" := by
  simp [strftime_dmY_HMS, String.ext_iff, pad2]

/-- find_datetime never returns the empty string: either a pattern matched
at least one character, or the formatted wall-clock fallback is used. -/
lemma find_datetime_ne_empty (texts : List String) (nowL : PyDateTime) :
    find_datetime texts nowL ≠ "" := by
  rw [find_datetime]
  rcases h : firstDtMatch texts with _ | s
  · exact strftime_ne_empty nowL
  · exact firstDtMatch_ne_empty h

/-- The row extractor rejects a candidate row exactly when the parsed
magnitude is the zero sentinel: the date/time token is never empty, and the
magnitude is never negative, so the truthiness check of line 130 reduces to
the magnitude being zero. -/
lemma parse_earthquake_row_eq_none_iff (cells : List String) (nowL nowU : PyDateTime) :
    parse_earthquake_row cells nowL nowU = none ↔ find_magnitude cells = 0 := by
  rw [parse_earthquake_row]
  by_cases hc : find_datetime cells nowL ≠ "" ∧ find_magnitude cells > 0
  · rw [if_pos hc]
    constructor
    · intro h
      exact (Option.some_ne_none _ h).elim
    · intro h
      rw [h] at hc
      exact absurd hc.2 (lt_irrefl 0)
  · rw [if_neg hc]
    have h0 : 0 ≤ find_magnitude cells := find_magnitude_nonneg cells
    rcases not_and_or.mp hc with hc1 | hc2
    · exact absurd (find_datetime_ne_empty cells nowL) (by simpa using hc1)
    · constructor
      · intro _
        exact le_antisymm (not_lt.mp hc2) h0
      · intro _
        rfl

/-- The row loop on a single data row reduces to the cell-count check and
the row parse; the ten-record break cannot fire. -/
lemma extractRows_single (r : HtmlRow) (nowL nowU : PyDateTime) :
    extractRows nowL nowU [r] [] =
      (if 3 ≤ r.cells.length then
        (match parse_earthquake_row r.cells nowL nowU with
         | some e => [e]
         | none => [])
       else []) := by
  rw [extractRows]
  by_cases h3 : r.cells.length ≥ 3
  · rcases hp : parse_earthquake_row r.cells nowL nowU with _ | e <;>
      simp [hp, extractRows, h3]
  · simp [h3, extractRows]

/-- C2, counterexample.  The claim says the first productive table wins and
later tables are not scanned.  In the two-table document the first table is
productive (one record of magnitude 4.5), yet the final output also carries
the second table's record of magnitude 5.1: the table loop has no break, so
every table is scanned. -/
theorem c2_counterexample_second_table_also_scanned :
    extract_from_table ⟨[hdrRow, dataRow1]⟩ now0 now0 ≠ [] ∧
    (extract_earthquakes_from_html soupTwoTables now0 now0).map Earthquake.magnitud
      = [4.5, 5.1] := by
  rw [q45, q51]
  exact ⟨by decide, rfl⟩

/-- C2, amended: every table is scanned regardless of earlier productive
tables and the per-table records are concatenated; the ten-record stop of
the source is a per-table cap, not a global one; the chain output is then
truncated to ten. -/
theorem c2_amended_all_tables_scanned_with_per_table_cap
    (soup : Soup) (nowL nowU : PyDateTime) :
    extract_earthquakes_from_html soup nowL nowU =
      ((soup.tables.map (fun t => extract_from_table t nowL nowU)).flatten).take 10 ∧
    ∀ t ∈ soup.tables, (extract_from_table t nowL nowU).length ≤ 10 :=
  ⟨extract_eq_tabular_take soup nowL nowU,
   fun t _ => extract_from_table_length_le t nowL nowU⟩

/-- C2, witness for the amended theorem at the concrete two-table
document. -/
theorem c2_amended_witness :
    extract_earthquakes_from_html soupTwoTables now0 now0 =
      ((soupTwoTables.tables.map (fun t => extract_from_table t now0 now0)).flatten).take 10 ∧
    (extract_from_table ⟨[hdrRow, dataRow1]⟩ now0 now0).length ≤ 10 := by
  obtain ⟨h1, h2⟩ := c2_amended_all_tables_scanned_with_per_table_cap soupTwoTables now0 now0
  exact ⟨h1, h2 _ (by simp [soupTwoTables])⟩

/-- C3, counterexample.  The claim says the first successfully parsed
positive float is returned.  On the texts "0 m" and "5.1 m" the first
pattern already parses the non-positive float 0.0 from the first text and
returns it, so the positive 5.1 of the second text is never reached. -/
theorem c3_counterexample_zero_float_returned :
    find_magnitude ["0 m", "5.1 m"] = 0 ∧ find_magnitude ["0 m", "5.1 m"] ≠ 5.1 := by
  rw [q51]
  exact ⟨rfl, by decide⟩

/-- C3, amended: scanning texts in order and, within each text, the two
specific magnitude shapes, the word magnitud, and only then the bare
decimal, find_magnitude returns the first successfully parsed float, which
need not be positive, and 0.0 when nothing parses; the documented example
still holds, and the text "80 km" indeed matches none of the patterns. -/
theorem c3_amended_first_parsed_float :
    (∀ texts : List String,
      find_magnitude texts =
        (texts.findSome? (fun t => firstParsedFloat magnitudePatterns t.data)).getD 0) ∧
    tryMagPatterns "80 km".data = none ∧
    find_magnitude ["Reporte", "M 4.5", "80 km"] = 4.5 := by
  refine ⟨?_, rfl, ?_⟩
  · intro texts
    induction texts with
    | nil => rfl
    | cons t ts ih =>
      rw [find_magnitude, List.findSome?_cons]
      simp only [tryMagPatterns]
      rcases h : firstParsedFloat magnitudePatterns t.data with _ | v <;>
        simp [h, ih]
  · rw [q45]
    rfl

/-- C4, counterexample.  The claim says every row with fewer than 3
non-empty cells is rejected.  The row with cells "5.0 M", "", "" has a
single non-empty cell, yet the extractor produces a record from it: the
source counts all td and th cells, empty ones included. -/
theorem c4_counterexample_sparse_row_accepted :
    (sparseRow.cells.filter (fun c => c ≠ "")).length < 3 ∧
    (extract_from_table ⟨[hdrRow, sparseRow]⟩ now0 now0).length = 1 :=
  ⟨by decide, rfl⟩

/-- C4, amended: a row is rejected outright when it has fewer than 3 cells,
counting empty cells; a row with at least 3 cells produces a record exactly
when its parsed magnitude is strictly positive (the date/time token is never
empty, thanks to the wall-clock fallback); in particular the row with cells
"", "", "Lima" yields no record. -/
theorem c4_amended_cell_count_and_magnitude
    (hdr r : HtmlRow) (nowL nowU : PyDateTime) :
    (r.cells.length < 3 → extract_from_table ⟨[hdr, r]⟩ nowL nowU = []) ∧
    (3 ≤ r.cells.length →
      (extract_from_table ⟨[hdr, r]⟩ nowL nowU ≠ [] ↔ 0 < find_magnitude r.cells)) ∧
    parse_earthquake_row ["", "", "Lima"] nowL nowU = none := by
  have hbase : extract_from_table ⟨[hdr, r]⟩ nowL nowU = extractRows nowL nowU [r] [] := rfl
  refine ⟨?_, ?_, (parse_earthquake_row_eq_none_iff _ _ _).mpr rfl⟩
  · intro h
    rw [hbase, extractRows_single, if_neg (by omega)]
  · intro h3
    rw [hbase, extractRows_single, if_pos h3]
    rcases hp : parse_earthquake_row r.cells nowL nowU with _ | e
    · have h0 : find_magnitude r.cells = 0 :=
        (parse_earthquake_row_eq_none_iff _ _ _).mp hp
      simp [h0]
    · have hne : find_magnitude r.cells ≠ 0 := by
        intro h0
        rw [← parse_earthquake_row_eq_none_iff r.cells nowL nowU] at h0
        rw [hp] at h0
        exact Option.some_ne_none e h0
      have : 0 < find_magnitude r.cells :=
        lt_of_le_of_ne (find_magnitude_nonneg r.cells) (Ne.symm hne)
      simp [this]

/-- C4, witness for the amended theorem: discharging each hypothesis at a
concrete row. -/
theorem c4_amended_witness :
    extract_from_table ⟨[hdrRow, ⟨["a", "b"]⟩]⟩ now0 now0 = [] ∧
    (extract_from_table ⟨[hdrRow, sparseRow]⟩ now0 now0 ≠ [] ↔
      0 < find_magnitude sparseRow.cells) ∧
    parse_earthquake_row ["", "", "Lima"] now0 now0 = none := by
  obtain ⟨h1, h2, h3⟩ := c4_amended_cell_count_and_magnitude hdrRow sparseRow now0 now0
  obtain ⟨h1', -, -⟩ := c4_amended_cell_count_and_magnitude hdrRow ⟨["a", "b"]⟩ now0 now0
  exact ⟨h1' (by decide), h2 (by decide), h3⟩

/-- C5: the strategy chain short-circuits on the tabular strategy, whose
non-empty result is returned (truncated) untouched by the free-text and
container strategies, and the chain output never exceeds ten records. -/
theorem c5_strategy_chain_shortcircuit_and_cap (soup : Soup) (nowL nowU : PyDateTime) :
    (tabularRecords soup nowL nowU ≠ [] →
      extract_earthquakes_from_html soup nowL nowU =
        (tabularRecords soup nowL nowU).take 10) ∧
    (extract_earthquakes_from_html soup nowL nowU).length ≤ 10 := by
  refine ⟨fun _ => extract_eq_tabular_take soup nowL nowU, ?_⟩
  rw [extract_eq_tabular_take, List.length_take]
  exact Nat.min_le_left _ _

/-- C5, witness at a document whose tabular strategy is productive. -/
theorem c5_strategy_chain_witness :
    extract_earthquakes_from_html soupTwoTables now0 now0 =
      (tabularRecords soupTwoTables now0 now0).take 10 ∧
    (extract_earthquakes_from_html soupTwoTables now0 now0).length ≤ 10 := by
  have h := c5_strategy_chain_shortcircuit_and_cap soupTwoTables now0 now0
  exact ⟨h.1 (by decide), h.2⟩

/-- C10: find_datetime never returns the empty string (it falls back to the
formatted current time), so the empty-date branch of the completeness check
is unreachable, and a candidate row is rejected exactly when the parsed
magnitude is the zero sentinel. -/
theorem c10_empty_date_branch_unreachable :
    (∀ (texts : List String) (nowL : PyDateTime), find_datetime texts nowL ≠ "") ∧
    (∀ (cells : List String) (nowL nowU : PyDateTime),
      parse_earthquake_row cells nowL nowU = none ↔ find_magnitude cells = 0) :=
  ⟨find_datetime_ne_empty, parse_earthquake_row_eq_none_iff⟩

/-- C10, witness at a concrete dateless row. -/
theorem c10_witness :
    find_datetime ["", "", "Lima"] now0 ≠ "" ∧
    parse_earthquake_row ["", "", "Lima"] now0 now0 = none :=
  ⟨c10_empty_date_branch_unreachable.1 ["", "", "Lima"] now0,
   (c10_empty_date_branch_unreachable.2 ["", "", "Lima"] now0 now0).mpr rfl⟩

/-- C6: the identity is a pure deterministic function of the date/time
token, the magnitude and the location text; and when the date/time token
comes from the page (not the clock fallback), two runs at different clock
values - hence with different scraped_at - assign the same id to the same
row. -/
theorem c6_id_deterministic_and_clock_independent :
    (∀ f m u f2 m2 u2, f = f2 → m = m2 → u = u2 →
      generate_id f m u = generate_id f2 m2 u2) ∧
    (∀ (cells : List String) (nowL nowU nowL2 nowU2 : PyDateTime),
      (firstDtMatch cells).isSome →
      (parse_earthquake_row cells nowL nowU).map Earthquake.id =
        (parse_earthquake_row cells nowL2 nowU2).map Earthquake.id) := by
  constructor
  · intro f m u f2 m2 u2 hf hm hu
    rw [hf, hm, hu]
  · intro cells nowL nowU nowL2 nowU2 h
    obtain ⟨s, hs⟩ := Option.isSome_iff_exists.mp h
    have hfd : ∀ nl : PyDateTime, find_datetime cells nl = s := fun nl => by
      rw [find_datetime, hs]
    simp only [parse_earthquake_row, hfd]
    by_cases hc : s ≠ "" ∧ find_magnitude cells > 0
    · rw [if_pos hc, if_pos hc]
      rfl
    · rw [if_neg hc, if_neg hc]

/-- C6, witness: two runs over the same complete row at two different
clocks produce the same id. -/
theorem c6_witness :
    (parse_earthquake_row dataRow1.cells now0 now0).map Earthquake.id =
      (parse_earthquake_row dataRow1.cells now1 now1).map Earthquake.id :=
  c6_id_deterministic_and_clock_independent.2 dataRow1.cells now0 now0 now1 now1
    (by decide)

/-- C7: on every fetch failure the orchestrator returns a 200-shaped result
with zero processed and zero saved records; the embedded handler is total,
so no error propagates. -/
theorem c7_fetch_failure_returns_zero_counts
    (err : FetchError) (upsert : Earthquake → Bool) (nowL nowU : PyDateTime) :
    lambda_handler (Except.error err) upsert nowL nowU =
      { statusCode := 200, sismos_procesados := 0, sismos_guardados := 0,
        timestamp := isoformat nowU } := rfl

/-- The save loop counts exactly the records the persistence double
accepts: a failing upsert is skipped and the loop continues. -/
lemma save_loop_eq_filter_length (u : Earthquake → Bool) (l : List Earthquake) :
    save_loop u l = (l.filter u).length := by
  induction l with
  | nil => rfl
  | cons e es ih =>
    rw [save_loop, ih, List.filter_cons]
    by_cases h : u e <;> simp [h, Nat.add_comm]

/-- C8: the processed count is the number of extracted records and the
saved count is the number of records whose upsert succeeded, so one failing
upsert among the extracted records lowers only the saved count; at the
concrete two-record document with a persistence double failing on the first
record, the handler reports 2 processed and 1 saved. -/
theorem c8_upsert_failure_skipped_and_counted :
    (∀ (fetched : Except FetchError Soup) (upsert : Earthquake → Bool)
        (nowL nowU : PyDateTime),
      (lambda_handler fetched upsert nowL nowU).sismos_procesados =
        (scrape_earthquakes fetched nowL nowU).length ∧
      (lambda_handler fetched upsert nowL nowU).sismos_guardados =
        ((scrape_earthquakes fetched nowL nowU).filter upsert).length) ∧
    (lambda_handler (Except.ok soupTwoTables) upsertFailOn45 now0 now0).sismos_procesados
      = 2 ∧
    (lambda_handler (Except.ok soupTwoTables) upsertFailOn45 now0 now0).sismos_guardados
      = 1 := by
  refine ⟨fun fetched upsert nowL nowU => ⟨rfl, ?_⟩, rfl, rfl⟩
  exact save_loop_eq_filter_length upsert _

/-! ### Lemmas for the timestamp round-trip (C9) -/

/-- A digit character is a digit. -/
lemma isDigitCh_toDigitChar {k : Nat} (h : k < 10) : isDigitCh (toDigitChar k) = true := by
  interval_cases k <;> rfl

/-- The value of a digit character. -/
lemma digitVal_toDigitChar {k : Nat} (h : k < 10) : digitVal (toDigitChar k) = k := by
  interval_cases k <;> rfl

/-- A digit character is not whitespace. -/
lemma isPySpace_toDigitChar {k : Nat} (h : k < 10) : isPySpace (toDigitChar k) = false := by
  interval_cases k <;> rfl

/-- A digit character differs from every non-digit character. -/
lemma toDigitChar_ne_of {k : Nat} (h : k < 10) {c : Char}
    (hc : isDigitCh c = false) : toDigitChar k ≠ c := by
  intro heq
  rw [← heq, isDigitCh_toDigitChar h] at hc
  cases hc

/-- The greedy two-digit reading applies on a zero-padded two-digit
rendering whose value lies in range. -/
lemma read12_pad2 {lo hi n : Nat} (rest : List Char) (h1 : lo ≤ n) (h2 : n ≤ hi)
    (h3 : n < 100) : read12 lo hi (pad2 n ++ rest) = some (n, rest) := by
  have ha : n / 10 < 10 := by omega
  have hb : n % 10 < 10 := by omega
  have hv : 10 * (n / 10) + n % 10 = n := by omega
  simp only [pad2, List.cons_append, List.nil_append, read12,
    isDigitCh_toDigitChar ha, isDigitCh_toDigitChar hb,
    digitVal_toDigitChar ha, digitVal_toDigitChar hb, hv]
  simp [h1, h2]

/-- The same at the end of the input. -/
lemma read12_pad2_nil {lo hi n : Nat} (h1 : lo ≤ n) (h2 : n ≤ hi) (h3 : n < 100) :
    read12 lo hi (pad2 n) = some (n, []) := by
  have := read12_pad2 [] h1 h2 h3
  simpa using this

/-- The year directive reads a zero-padded four-digit rendering. -/
lemma readY_pad4 {y : Nat} (rest : List Char) (h : y < 10000) :
    readY (pad4 y ++ rest) = some (y, rest) := by
  have h1 : y / 1000 < 10 := by omega
  have h2 : y / 100 % 10 < 10 := by omega
  have h3 : y / 10 % 10 < 10 := by omega
  have h4 : y % 10 < 10 := by omega
  have hv : 1000 * (y / 1000) + 100 * (y / 100 % 10) + 10 * (y / 10 % 10) + y % 10 = y := by
    omega
  simp only [pad4, List.cons_append, List.nil_append, readY,
    isDigitCh_toDigitChar h1, isDigitCh_toDigitChar h2, isDigitCh_toDigitChar h3,
    isDigitCh_toDigitChar h4, digitVal_toDigitChar h1, digitVal_toDigitChar h2,
    digitVal_toDigitChar h3, digitVal_toDigitChar h4, hv]
  simp

/-- A literal separator consumes itself. -/
lemma readLit_cons (c : Char) (xs : List Char) : readLit c (c :: xs) = some xs := by
  simp [readLit]

/-- A literal separator fails on a different character. -/
lemma readLit_ne {c x : Char} (h : x ≠ c) (xs : List Char) :
    readLit c (x :: xs) = none := by
  simp [readLit, h]

/-- A literal separator fails at the end of the input. -/
lemma readLit_nil (c : Char) : readLit c [] = none := rfl

/-- Format whitespace consumes exactly the single space before a padded
number. -/
lemma readWS_space_pad2 {k : Nat} (h : k < 100) (xs : List Char) :
    readWS (' ' :: (pad2 k ++ xs)) = some (pad2 k ++ xs) := by
  have ha : k / 10 < 10 := by omega
  have hsp : isPySpace ' ' = true := rfl
  simp [readWS, pad2, List.cons_append, List.dropWhile, hsp,
    isPySpace_toDigitChar ha]

/-- Each month has at most 31 days. -/
lemma daysInMonth_le_31 (y m : Nat) : daysInMonth y m ≤ 31 := by
  unfold daysInMonth
  split_ifs <;> omega

/-- The datetime constructor accepts components in range. -/
lemma mkDatetime_eq_some {y m d H M S : Nat} (hy1 : 1 ≤ y) (hy2 : y ≤ 9999)
    (hm1 : 1 ≤ m) (hm2 : m ≤ 12) (hd1 : 1 ≤ d) (hd2 : d ≤ daysInMonth y m)
    (hH : H ≤ 23) (hM : M ≤ 59) (hS : S ≤ 59) :
    mkDatetime y m d H M S = some ⟨y, m, d, H, M, S⟩ := by
  rw [mkDatetime, if_pos ⟨hy1, hy2, hm1, hm2, hd1, hd2, hH, hM, hS⟩]

/-- strptime round-trip for the day/month/year pattern with seconds. -/
lemma strptime_fmt1_roundtrip {y m d H M S : Nat} (hy1 : 1000 ≤ y) (hy2 : y ≤ 9999)
    (hm1 : 1 ≤ m) (hm2 : m ≤ 12) (hd1 : 1 ≤ d) (hd2 : d ≤ daysInMonth y m)
    (hH : H ≤ 23) (hM : M ≤ 59) (hS : S ≤ 59) :
    strptime_fmt1 (pad2 d ++ '/' :: pad2 m ++ '/' :: pad4 y ++
      ' ' :: pad2 H ++ ':' :: pad2 M ++ ':' :: pad2 S) = some ⟨y, m, d, H, M, S⟩ := by
  have hd31 : d ≤ 31 := le_trans hd2 (daysInMonth_le_31 y m)
  rw [strptime_fmt1]
  simp only [List.append_assoc, List.cons_append]
  rw [read12_pad2 _ hd1 hd31 (show d < 100 by omega)]
  simp only [Option.bind_eq_bind, Option.some_bind]
  rw [readLit_cons]
  simp only [Option.bind_eq_bind, Option.some_bind]
  rw [read12_pad2 _ hm1 hm2 (show m < 100 by omega)]
  simp only [Option.bind_eq_bind, Option.some_bind]
  rw [readLit_cons]
  simp only [Option.bind_eq_bind, Option.some_bind]
  rw [readY_pad4 _ (show y < 10000 by omega)]
  simp only [Option.bind_eq_bind, Option.some_bind]
  rw [readWS_space_pad2 (show H < 100 by omega)]
  simp only [Option.bind_eq_bind, Option.some_bind]
  rw [read12_pad2 _ (Nat.zero_le H) hH (show H < 100 by omega)]
  simp only [Option.bind_eq_bind, Option.some_bind]
  rw [readLit_cons]
  simp only [Option.bind_eq_bind, Option.some_bind]
  rw [read12_pad2 _ (Nat.zero_le M) hM (show M < 100 by omega)]
  simp only [Option.bind_eq_bind, Option.some_bind]
  rw [readLit_cons]
  simp only [Option.bind_eq_bind, Option.some_bind]
  rw [read12_pad2_nil (Nat.zero_le S) hS (show S < 100 by omega)]
  simp only [Option.bind_eq_bind, Option.some_bind]
  exact mkDatetime_eq_some (by omega) (by omega) hm1 hm2 hd1 hd2 hH hM hS

/-- strptime round-trip for the year-month-day pattern. -/
lemma strptime_fmt2_roundtrip {y m d H M S : Nat} (hy1 : 1000 ≤ y) (hy2 : y ≤ 9999)
    (hm1 : 1 ≤ m) (hm2 : m ≤ 12) (hd1 : 1 ≤ d) (hd2 : d ≤ daysInMonth y m)
    (hH : H ≤ 23) (hM : M ≤ 59) (hS : S ≤ 59) :
    strptime_fmt2 (pad4 y ++ '-' :: pad2 m ++ '-' :: pad2 d ++
      ' ' :: pad2 H ++ ':' :: pad2 M ++ ':' :: pad2 S) = some ⟨y, m, d, H, M, S⟩ := by
  have hd31 : d ≤ 31 := le_trans hd2 (daysInMonth_le_31 y m)
  rw [strptime_fmt2]
  simp only [List.append_assoc, List.cons_append]
  rw [readY_pad4 _ (show y < 10000 by omega)]
  simp only [Option.bind_eq_bind, Option.some_bind]
  rw [readLit_cons]
  simp only [Option.bind_eq_bind, Option.some_bind]
  rw [read12_pad2 _ hm1 hm2 (show m < 100 by omega)]
  simp only [Option.bind_eq_bind, Option.some_bind]
  rw [readLit_cons]
  simp only [Option.bind_eq_bind, Option.some_bind]
  rw [read12_pad2 _ hd1 hd31 (show d < 100 by omega)]
  simp only [Option.bind_eq_bind, Option.some_bind]
  rw [readWS_space_pad2 (show H < 100 by omega)]
  simp only [Option.bind_eq_bind, Option.some_bind]
  rw [read12_pad2 _ (Nat.zero_le H) hH (show H < 100 by omega)]
  simp only [Option.bind_eq_bind, Option.some_bind]
  rw [readLit_cons]
  simp only [Option.bind_eq_bind, Option.some_bind]
  rw [read12_pad2 _ (Nat.zero_le M) hM (show M < 100 by omega)]
  simp only [Option.bind_eq_bind, Option.some_bind]
  rw [readLit_cons]
  simp only [Option.bind_eq_bind, Option.some_bind]
  rw [read12_pad2_nil (Nat.zero_le S) hS (show S < 100 by omega)]
  simp only [Option.bind_eq_bind, Option.some_bind]
  exact mkDatetime_eq_some (by omega) (by omega) hm1 hm2 hd1 hd2 hH hM hS

/-- strptime round-trip for the hyphenated day-month-year pattern. -/
lemma strptime_fmt3_roundtrip {y m d H M S : Nat} (hy1 : 1000 ≤ y) (hy2 : y ≤ 9999)
    (hm1 : 1 ≤ m) (hm2 : m ≤ 12) (hd1 : 1 ≤ d) (hd2 : d ≤ daysInMonth y m)
    (hH : H ≤ 23) (hM : M ≤ 59) (hS : S ≤ 59) :
    strptime_fmt3 (pad2 d ++ '-' :: pad2 m ++ '-' :: pad4 y ++
      ' ' :: pad2 H ++ ':' :: pad2 M ++ ':' :: pad2 S) = some ⟨y, m, d, H, M, S⟩ := by
  have hd31 : d ≤ 31 := le_trans hd2 (daysInMonth_le_31 y m)
  rw [strptime_fmt3]
  simp only [List.append_assoc, List.cons_append]
  rw [read12_pad2 _ hd1 hd31 (show d < 100 by omega)]
  simp only [Option.bind_eq_bind, Option.some_bind]
  rw [readLit_cons]
  simp only [Option.bind_eq_bind, Option.some_bind]
  rw [read12_pad2 _ hm1 hm2 (show m < 100 by omega)]
  simp only [Option.bind_eq_bind, Option.some_bind]
  rw [readLit_cons]
  simp only [Option.bind_eq_bind, Option.some_bind]
  rw [readY_pad4 _ (show y < 10000 by omega)]
  simp only [Option.bind_eq_bind, Option.some_bind]
  rw [readWS_space_pad2 (show H < 100 by omega)]
  simp only [Option.bind_eq_bind, Option.some_bind]
  rw [read12_pad2 _ (Nat.zero_le H) hH (show H < 100 by omega)]
  simp only [Option.bind_eq_bind, Option.some_bind]
  rw [readLit_cons]
  simp only [Option.bind_eq_bind, Option.some_bind]
  rw [read12_pad2 _ (Nat.zero_le M) hM (show M < 100 by omega)]
  simp only [Option.bind_eq_bind, Option.some_bind]
  rw [readLit_cons]
  simp only [Option.bind_eq_bind, Option.some_bind]
  rw [read12_pad2_nil (Nat.zero_le S) hS (show S < 100 by omega)]
  simp only [Option.bind_eq_bind, Option.some_bind]
  exact mkDatetime_eq_some (by omega) (by omega) hm1 hm2 hd1 hd2 hH hM hS

/-- strptime round-trip for the minute-precision day/month/year pattern;
the second component defaults to zero. -/
lemma strptime_fmt4_roundtrip {y m d H M : Nat} (hy1 : 1000 ≤ y) (hy2 : y ≤ 9999)
    (hm1 : 1 ≤ m) (hm2 : m ≤ 12) (hd1 : 1 ≤ d) (hd2 : d ≤ daysInMonth y m)
    (hH : H ≤ 23) (hM : M ≤ 59) :
    strptime_fmt4 (pad2 d ++ '/' :: pad2 m ++ '/' :: pad4 y ++
      ' ' :: pad2 H ++ ':' :: pad2 M) = some ⟨y, m, d, H, M, 0⟩ := by
  have hd31 : d ≤ 31 := le_trans hd2 (daysInMonth_le_31 y m)
  rw [strptime_fmt4]
  simp only [List.append_assoc, List.cons_append]
  rw [read12_pad2 _ hd1 hd31 (show d < 100 by omega)]
  simp only [Option.bind_eq_bind, Option.some_bind]
  rw [readLit_cons]
  simp only [Option.bind_eq_bind, Option.some_bind]
  rw [read12_pad2 _ hm1 hm2 (show m < 100 by omega)]
  simp only [Option.bind_eq_bind, Option.some_bind]
  rw [readLit_cons]
  simp only [Option.bind_eq_bind, Option.some_bind]
  rw [readY_pad4 _ (show y < 10000 by omega)]
  simp only [Option.bind_eq_bind, Option.some_bind]
  rw [readWS_space_pad2 (show H < 100 by omega)]
  simp only [Option.bind_eq_bind, Option.some_bind]
  rw [read12_pad2 _ (Nat.zero_le H) hH (show H < 100 by omega)]
  simp only [Option.bind_eq_bind, Option.some_bind]
  rw [readLit_cons]
  simp only [Option.bind_eq_bind, Option.some_bind]
  rw [read12_pad2_nil (Nat.zero_le M) hM (show M < 100 by omega)]
  simp only [Option.bind_eq_bind, Option.some_bind]
  exact mkDatetime_eq_some (by omega) (by omega) hm1 hm2 hd1 hd2 hH hM (by omega)

/-- The only two ways the one-or-two-digit directive can split its input. -/
lemma read12_rest_cases {lo hi : Nat} {a b : Char} {rest : List Char} {v : Nat}
    {r : List Char} (h : read12 lo hi (a :: b :: rest) = some (v, r)) :
    r = rest ∨ r = b :: rest := by
  simp only [read12] at h
  split_ifs at h
  · cases h
    exact Or.inl rfl
  · cases h
    exact Or.inr rfl

/-- The year directive fails when the third character is not a digit. -/
lemma readY_none_nondigit3 {c : Char} (hc : isDigitCh c = false)
    (x y : Char) (rest : List Char) : readY (x :: y :: c :: rest) = none := by
  cases rest <;> simp [readY, hc]

/-- The first format fails on a year-first token: whether the day directive
takes one or two of the year digits, the slash separator then meets a
digit. -/
lemma strptime_fmt1_none_on_Ymd (y m d H M S : Nat) :
    strptime_fmt1 (pad4 y ++ '-' :: pad2 m ++ '-' :: pad2 d ++
      ' ' :: pad2 H ++ ':' :: pad2 M ++ ':' :: pad2 S) = none := by
  rw [strptime_fmt1]
  simp only [pad4, List.append_assoc, List.cons_append, List.nil_append]
  rcases hr : read12 1 31 (toDigitChar (y / 1000) :: toDigitChar (y / 100 % 10) ::
      toDigitChar (y / 10 % 10) :: toDigitChar (y % 10) :: '-' :: (pad2 m ++ '-' ::
      (pad2 d ++ ' ' :: (pad2 H ++ ':' :: (pad2 M ++ ':' :: pad2 S))))) with _ | p
  · rfl
  · obtain ⟨v, r⟩ := p
    rcases read12_rest_cases hr with h | h <;> subst h <;>
      simp only [Option.bind_eq_bind, Option.some_bind]
    · rw [readLit_ne (toDigitChar_ne_of (show y / 10 % 10 < 10 by omega)
        (show isDigitCh '/' = false from rfl))]
      rfl
    · rw [readLit_ne (toDigitChar_ne_of (show y / 100 % 10 < 10 by omega)
        (show isDigitCh '/' = false from rfl))]
      rfl

/-- The first format fails on a hyphenated token: after the day directive
the slash separator meets a hyphen or a digit. -/
lemma strptime_fmt1_none_on_dash (y m d H M S : Nat) :
    strptime_fmt1 (pad2 d ++ '-' :: pad2 m ++ '-' :: pad4 y ++
      ' ' :: pad2 H ++ ':' :: pad2 M ++ ':' :: pad2 S) = none := by
  rw [strptime_fmt1]
  simp only [pad2, List.append_assoc, List.cons_append, List.nil_append]
  rcases hr : read12 1 31 (toDigitChar (d / 10) :: toDigitChar (d % 10) ::
      '-' :: (toDigitChar (m / 10) :: toDigitChar (m % 10) :: '-' :: (pad4 y ++
      ' ' :: (toDigitChar (H / 10) :: toDigitChar (H % 10) :: ':' ::
      (toDigitChar (M / 10) :: toDigitChar (M % 10) :: ':' ::
      (toDigitChar (S / 10) :: [toDigitChar (S % 10)])))))) with _ | p
  · rfl
  · obtain ⟨v, r⟩ := p
    rcases read12_rest_cases hr with h | h <;> subst h <;>
      simp only [Option.bind_eq_bind, Option.some_bind]
    · rw [readLit_ne (show ('-' : Char) ≠ '/' by decide)]
      rfl
    · rw [readLit_ne (toDigitChar_ne_of (show d % 10 < 10 by omega)
        (show isDigitCh '/' = false from rfl))]
      rfl

/-- The second format fails on a day-first hyphenated token: its year
directive meets the hyphen. -/
lemma strptime_fmt2_none_on_dmY_dash (y m d H M S : Nat) :
    strptime_fmt2 (pad2 d ++ '-' :: pad2 m ++ '-' :: pad4 y ++
      ' ' :: pad2 H ++ ':' :: pad2 M ++ ':' :: pad2 S) = none := by
  rw [strptime_fmt2]
  simp only [pad2, List.append_assoc, List.cons_append, List.nil_append]
  rw [readY_none_nondigit3 (show isDigitCh '-' = false from rfl)]
  rfl

/-- The second format fails on a day-first slashed minute-precision token:
its year directive meets the slash. -/
lemma strptime_fmt2_none_on_dmY_HM (y m d H M : Nat) :
    strptime_fmt2 (pad2 d ++ '/' :: pad2 m ++ '/' :: pad4 y ++
      ' ' :: pad2 H ++ ':' :: pad2 M) = none := by
  rw [strptime_fmt2]
  simp only [pad2, List.append_assoc, List.cons_append, List.nil_append]
  rw [readY_none_nondigit3 (show isDigitCh '/' = false from rfl)]
  rfl

/-- The third format fails on a slashed token: after the day directive the
hyphen separator meets a slash or a digit. -/
lemma strptime_fmt3_none_on_slash (y m d H M : Nat) :
    strptime_fmt3 (pad2 d ++ '/' :: pad2 m ++ '/' :: pad4 y ++
      ' ' :: pad2 H ++ ':' :: pad2 M) = none := by
  rw [strptime_fmt3]
  simp only [pad2, List.append_assoc, List.cons_append, List.nil_append]
  rcases hr : read12 1 31 (toDigitChar (d / 10) :: toDigitChar (d % 10) ::
      '/' :: (toDigitChar (m / 10) :: toDigitChar (m % 10) :: '/' :: (pad4 y ++
      ' ' :: (toDigitChar (H / 10) :: toDigitChar (H % 10) :: ':' ::
      (toDigitChar (M / 10) :: [toDigitChar (M % 10)]))))) with _ | p
  · rfl
  · obtain ⟨v, r⟩ := p
    rcases read12_rest_cases hr with h | h <;> subst h <;>
      simp only [Option.bind_eq_bind, Option.some_bind]
    · rw [readLit_ne (show ('/' : Char) ≠ '-' by decide)]
      rfl
    · rw [readLit_ne (toDigitChar_ne_of (show d % 10 < 10 by omega)
        (show isDigitCh '-' = false from rfl))]
      rfl

/-- The first format fails on a minute-precision token: it demands a second
colon where the token ends. -/
lemma strptime_fmt1_none_on_HM {y m d H M : Nat} (hy1 : 1000 ≤ y) (hy2 : y ≤ 9999)
    (hm1 : 1 ≤ m) (hm2 : m ≤ 12) (hd1 : 1 ≤ d) (hd2 : d ≤ daysInMonth y m)
    (hH : H ≤ 23) (hM : M ≤ 59) :
    strptime_fmt1 (pad2 d ++ '/' :: pad2 m ++ '/' :: pad4 y ++
      ' ' :: pad2 H ++ ':' :: pad2 M) = none := by
  have hd31 : d ≤ 31 := le_trans hd2 (daysInMonth_le_31 y m)
  rw [strptime_fmt1]
  simp only [List.append_assoc, List.cons_append]
  rw [read12_pad2 _ hd1 hd31 (show d < 100 by omega)]
  simp only [Option.bind_eq_bind, Option.some_bind]
  rw [readLit_cons]
  simp only [Option.bind_eq_bind, Option.some_bind]
  rw [read12_pad2 _ hm1 hm2 (show m < 100 by omega)]
  simp only [Option.bind_eq_bind, Option.some_bind]
  rw [readLit_cons]
  simp only [Option.bind_eq_bind, Option.some_bind]
  rw [readY_pad4 _ (show y < 10000 by omega)]
  simp only [Option.bind_eq_bind, Option.some_bind]
  rw [readWS_space_pad2 (show H < 100 by omega)]
  simp only [Option.bind_eq_bind, Option.some_bind]
  rw [read12_pad2 _ (Nat.zero_le H) hH (show H < 100 by omega)]
  simp only [Option.bind_eq_bind, Option.some_bind]
  rw [readLit_cons]
  simp only [Option.bind_eq_bind, Option.some_bind]
  rw [read12_pad2_nil (Nat.zero_le M) hM (show M < 100 by omega)]
  simp only [Option.bind_eq_bind, Option.some_bind, readLit_nil]
  rfl

/-- C9: for every token rendered from in-range components in any of the
four supported date/time shapes, parse_timestamp yields the instant with
exactly those components (the minute-precision shape getting second zero);
in particular the token "15/03/2024 10:30:00" yields
"2024-03-15T10:30:00". -/
theorem c9_normalize_timestamp_roundtrip :
    (∀ (y m d H M S : Nat) (nowU : PyDateTime),
      1000 ≤ y → y ≤ 9999 → 1 ≤ m → m ≤ 12 → 1 ≤ d → d ≤ daysInMonth y m →
      H ≤ 23 → M ≤ 59 → S ≤ 59 →
      parse_timestamp (strftime_dmY_HMS ⟨y, m, d, H, M, S⟩) nowU
          = isoformat ⟨y, m, d, H, M, S⟩ ∧
      parse_timestamp (token_Ymd_HMS y m d H M S) nowU
          = isoformat ⟨y, m, d, H, M, S⟩ ∧
      parse_timestamp (token_dmY_HMS_dash y m d H M S) nowU
          = isoformat ⟨y, m, d, H, M, S⟩ ∧
      parse_timestamp (token_dmY_HM y m d H M) nowU
          = isoformat ⟨y, m, d, H, M, 0⟩) ∧
    (∀ nowU : PyDateTime,
      parse_timestamp "15/03/2024 10:30:00" nowU = "2024-03-15T10:30:00") := by
  constructor
  · intro y m d H M S nowU hy1 hy2 hm1 hm2 hd1 hd2 hH hM hS
    refine ⟨?_, ?_, ?_, ?_⟩
    · rw [parse_timestamp,
        show (strftime_dmY_HMS ⟨y, m, d, H, M, S⟩).data =
          pad2 d ++ '/' :: pad2 m ++ '/' :: pad4 y ++
            ' ' :: pad2 H ++ ':' :: pad2 M ++ ':' :: pad2 S from rfl,
        strptime_fmt1_roundtrip hy1 hy2 hm1 hm2 hd1 hd2 hH hM hS]
    · rw [parse_timestamp,
        show (token_Ymd_HMS y m d H M S).data =
          pad4 y ++ '-' :: pad2 m ++ '-' :: pad2 d ++
            ' ' :: pad2 H ++ ':' :: pad2 M ++ ':' :: pad2 S from rfl,
        strptime_fmt1_none_on_Ymd,
        strptime_fmt2_roundtrip hy1 hy2 hm1 hm2 hd1 hd2 hH hM hS]
    · rw [parse_timestamp,
        show (token_dmY_HMS_dash y m d H M S).data =
          pad2 d ++ '-' :: pad2 m ++ '-' :: pad4 y ++
            ' ' :: pad2 H ++ ':' :: pad2 M ++ ':' :: pad2 S from rfl,
        strptime_fmt1_none_on_dash,
        strptime_fmt2_none_on_dmY_dash,
        strptime_fmt3_roundtrip hy1 hy2 hm1 hm2 hd1 hd2 hH hM hS]
    · rw [parse_timestamp,
        show (token_dmY_HM y m d H M).data =
          pad2 d ++ '/' :: pad2 m ++ '/' :: pad4 y ++
            ' ' :: pad2 H ++ ':' :: pad2 M from rfl,
        strptime_fmt1_none_on_HM hy1 hy2 hm1 hm2 hd1 hd2 hH hM,
        strptime_fmt2_none_on_dmY_HM,
        strptime_fmt3_none_on_slash,
        strptime_fmt4_roundtrip hy1 hy2 hm1 hm2 hd1 hd2 hH hM]
  · intro nowU
    rfl

/-- C9, witness at the components of the documented example in all four
shapes. -/
theorem c9_witness :
    parse_timestamp (strftime_dmY_HMS ⟨2024, 3, 15, 10, 30, 0⟩) now0
        = isoformat ⟨2024, 3, 15, 10, 30, 0⟩ ∧
    parse_timestamp (token_Ymd_HMS 2024 3 15 10 30 0) now0
        = isoformat ⟨2024, 3, 15, 10, 30, 0⟩ ∧
    parse_timestamp (token_dmY_HMS_dash 2024 3 15 10 30 0) now0
        = isoformat ⟨2024, 3, 15, 10, 30, 0⟩ ∧
    parse_timestamp (token_dmY_HM 2024 3 15 10 30) now0
        = isoformat ⟨2024, 3, 15, 10, 30, 0⟩ :=
  c9_normalize_timestamp_roundtrip.1 2024 3 15 10 30 0 now0
    (by norm_num) (by norm_num) (by norm_num) (by norm_num) (by norm_num)
    (by norm_num [daysInMonth, isLeap]) (by norm_num) (by norm_num) (by norm_num)

end Sismos
